import Mathlib

/-!
Verification of the interactive task-manager state machine
(`src/app/task_edit.rs`, `src/app/task_list.rs`, `src/app/storage.rs`,
`src/app/ui.rs`, `src/app/models.rs`).

The Rust code is shallowly embedded: text buffers are `List Char`
(the app only ever inserts single keyboard characters, so char index and
Rust byte index coincide on the inputs of interest), dates are
year/month/day triples (the app pins time-of-day to start of day),
and the fallible `String::insert` / `String::remove` calls — which panic in
Rust when the index is out of bounds — return `Option` (`none` = panic).
The SQLite store is modelled as the list of persisted rows, and a store
call that can fail is given its outcome as an explicit boolean.
-/

/-- Decimal digits of a natural number, fuel-indexed exactly like core
`Nat.toDigitsCore`; models Rust `i32::to_string` digit production. -/
def natToTextAux : Nat → Nat → List Char
  | 0, _ => []
  | fuel + 1, n =>
    if n < 10 then [Nat.digitChar n]
    else natToTextAux fuel (n / 10) ++ [Nat.digitChar (n % 10)]

/-- Decimal rendering of a natural number. -/
def natToText (n : Nat) : List Char := natToTextAux (n + 1) n

/-- Rust `i32::to_string`: optional minus sign followed by decimal digits. -/
def intToText (p : Int) : List Char :=
  if p < 0 then '-' :: natToText p.natAbs else natToText p.toNat

/-- Calendar date at day granularity: the time-of-day component of the Rust
`DateTime<Utc>` is fixed to start of day by `save_task`, so chronological
comparison of due dates is lexicographic on (year, month, day). -/
structure Date where
  year : Nat
  month : Nat
  day : Nat
deriving DecidableEq

/-- `src/app/models.rs`: the persisted `Task` entity (named `AppTask` here
because `Task` is taken by the Lean core library). -/
structure AppTask where
  id : Option Int
  title : List Char
  description : List Char
  due_date : Date
  priority : Int
  completed : Bool
deriving DecidableEq

/-- `src/app/task_edit.rs` `TaskEditDialogContent`: the four editable fields
(the priority is stored as an integer and rendered as text on demand). -/
structure TaskEditDialogContent where
  title : List Char
  description : List Char
  due_date : List Char
  priority : Int
deriving DecidableEq

/-- The `Default` impl of `TaskEditDialogContent`: empty strings, priority 0. -/
def TaskEditDialogContent.deflt : TaskEditDialogContent := ⟨[], [], [], 0⟩

/-- `src/app/task_edit.rs` `TaskEditDialogState`. `cursor_position` is
`(column, row)` as in the Rust `(usize, usize)` pair. -/
structure TaskEditDialogState where
  dialog_active : Bool
  task_id : Option Int
  content : Option TaskEditDialogContent
  error_message : Option String
  cursor_position : Option (Nat × Nat)
deriving DecidableEq

/-- The derived `Default` state of the dialog (all fields `None`/`false`). -/
def initialEditState : TaskEditDialogState := ⟨false, none, none, none, none⟩

/-- `self.cursor_position.unwrap_or((0, 0))`, used by every cursor helper. -/
def cursorOr (st : TaskEditDialogState) : Nat × Nat :=
  st.cursor_position.getD (0, 0)

/-- Current cursor column (`cursor_position.0`). -/
def cursorCol (st : TaskEditDialogState) : Nat := (cursorOr st).1

/-- Current cursor row (`cursor_position.1`). -/
def cursorRow (st : TaskEditDialogState) : Nat := (cursorOr st).2

/-- Row dispatch of `content_of_string_at_y_pos` over the four fields
(row 3 renders the priority integer as text, any other row is empty). -/
def contentTextAt (ct : TaskEditDialogContent) (y : Nat) : List Char :=
  if y = 0 then ct.title
  else if y = 1 then ct.description
  else if y = 2 then ct.due_date
  else if y = 3 then intToText ct.priority
  else []

/-- `content_of_string_at_y_pos`: maps a row index to the text of that row;
`content` of `None` falls back to the static default. -/
def contentAt (st : TaskEditDialogState) (y : Nat) : List Char :=
  contentTextAt (st.content.getD TaskEditDialogContent.deflt) y

/-- `create_a_new_task`: activates the dialog in create mode with default
(empty) content.  Note that `cursor_position` and `error_message` are NOT
touched by the Rust method. -/
def create_a_new_task (st : TaskEditDialogState) : TaskEditDialogState :=
  { st with dialog_active := true, task_id := none,
            content := some TaskEditDialogContent.deflt }

/-- Zero-padded two-digit rendering (chrono `%d` / `%m` with default pad). -/
def pad2 (n : Nat) : List Char :=
  if n < 10 then '0' :: natToText n else natToText n

/-- Zero-padded four-digit rendering (chrono `%Y` with default pad). -/
def pad4 (n : Nat) : List Char :=
  List.replicate (4 - (natToText n).length) '0' ++ natToText n

/-- `task.due_date.format("%d.%m.%Y").to_string()` at day granularity. -/
def formatDate (d : Date) : List Char :=
  pad2 d.day ++ '.' :: pad2 d.month ++ '.' :: pad4 d.year

/-- `edit_task`: activates the dialog in edit mode, populates the buffers
from the task and resets the cursor to `(0, 0)`. -/
def edit_task (st : TaskEditDialogState) (t : AppTask) : TaskEditDialogState :=
  { st with dialog_active := true, task_id := t.id,
            cursor_position := some (0, 0),
            content := some ⟨t.title, t.description, formatDate t.due_date,
                             t.priority⟩ }

/-- `move_cursor_down`: row capped at 3, column clamped to the destination
row's text length. -/
def move_cursor_down (st : TaskEditDialogState) : TaskEditDialogState :=
  { st with
    cursor_position :=
      some (min (cursorOr st).1
              (contentAt st (min ((cursorOr st).2 + 1) 3)).length,
            min ((cursorOr st).2 + 1) 3) }

/-- `move_cursor_up`: decrements the row when positive; the column is NOT
reclamped against the destination row. -/
def move_cursor_up (st : TaskEditDialogState) : TaskEditDialogState :=
  if (cursorOr st).2 > 0 then
    { st with cursor_position := some ((cursorOr st).1, (cursorOr st).2 - 1) }
  else st

/-- `move_cursor_left`: decrements the column when positive. -/
def move_cursor_left (st : TaskEditDialogState) : TaskEditDialogState :=
  if (cursorOr st).1 > 0 then
    { st with cursor_position := some ((cursorOr st).1 - 1, (cursorOr st).2) }
  else st

/-- `move_cursor_right`: increments the column, clamped to the current row's
text length. -/
def move_cursor_right (st : TaskEditDialogState) : TaskEditDialogState :=
  { st with
    cursor_position :=
      some (min ((cursorOr st).1 + 1)
              (contentAt st (cursorOr st).2).length,
            (cursorOr st).2) }

/-- Rust `String::insert` (char units): `none` models the panic when the
index is past the end of the buffer. -/
def insertAt (l : List Char) (i : Nat) (c : Char) : Option (List Char) :=
  if i ≤ l.length then some (l.take i ++ c :: l.drop i) else none

/-- Rust `String::remove` (char units): `none` models the panic when the
index is not strictly inside the buffer. -/
def removeAt (l : List Char) (i : Nat) : Option (List Char) :=
  if i < l.length then some (l.take i ++ l.drop (i + 1)) else none

/-- First two lines of `input`: when the current row's text is empty the
cursor column is forced to 0 before inserting. -/
def inputReset (st : TaskEditDialogState) : TaskEditDialogState :=
  if (contentAt st (cursorOr st).2).length = 0 then
    { st with cursor_position := some (0, (cursorOr st).2) }
  else st

/-- `input`: inserts a char at the cursor in rows 0–2 (possible
out-of-bounds panic modelled as `none`), overwrites the priority digit in
row 3 for `'0'`/`'1'`/`'2'` and ignores other chars there, then moves the
cursor right; with no content it returns without moving right. -/
def input (st : TaskEditDialogState) (c : Char) :
    Option TaskEditDialogState :=
  let st1 := inputReset st
  match st1.content with
  | none => some st1
  | some ct =>
    if (cursorOr st1).2 = 0 then
      (insertAt ct.title (cursorOr st1).1 c).map fun l =>
        move_cursor_right { st1 with content := some { ct with title := l } }
    else if (cursorOr st1).2 = 1 then
      (insertAt ct.description (cursorOr st1).1 c).map fun l =>
        move_cursor_right
          { st1 with content := some { ct with description := l } }
    else if (cursorOr st1).2 = 2 then
      (insertAt ct.due_date (cursorOr st1).1 c).map fun l =>
        move_cursor_right
          { st1 with content := some { ct with due_date := l } }
    else if (cursorOr st1).2 = 3 then
      if c = '0' ∨ c = '1' ∨ c = '2' then
        some (move_cursor_right
          { st1 with content := some { ct with priority :=
              (if c = '0' then 0 else if c = '1' then 1 else 2) } })
      else some (move_cursor_right st1)
    else some (move_cursor_right st1)

/-- `delete_char`: backspace.  No-op at column 0; otherwise when the column
is at or past the end of the row's text the removal index is first
decremented once, then the char is removed from rows 0–2 (possible
out-of-bounds panic modelled as `none`; row 3 removes nothing) and the
cursor moves left. -/
def delete_char (st : TaskEditDialogState) : Option TaskEditDialogState :=
  if (cursorOr st).1 = 0 then some st
  else
    let x := if (cursorOr st).1 ≥ (contentAt st (cursorOr st).2).length
             then (cursorOr st).1 - 1 else (cursorOr st).1
    match st.content with
    | none => some st
    | some ct =>
      if (cursorOr st).2 = 0 then
        (removeAt ct.title x).map fun l =>
          move_cursor_left { st with content := some { ct with title := l } }
      else if (cursorOr st).2 = 1 then
        (removeAt ct.description x).map fun l =>
          move_cursor_left
            { st with content := some { ct with description := l } }
      else if (cursorOr st).2 = 2 then
        (removeAt ct.due_date x).map fun l =>
          move_cursor_left
            { st with content := some { ct with due_date := l } }
      else some (move_cursor_left st)

/-- Esc in the dialog branch of `run_app`: the single statement
`dialog_active = false`; buffers, error message and cursor are untouched. -/
def cancel (st : TaskEditDialogState) : TaskEditDialogState :=
  { st with dialog_active := false }

/-- Greedy parse of at most `maxW` leading decimal digits (at least one),
as chrono's numeric field scanner does. -/
def parseNum (maxW : Nat) (l : List Char) : Option (Nat × List Char) :=
  let ds := (l.take maxW).takeWhile Char.isDigit
  if ds.isEmpty then none
  else some (ds.foldl (fun a c => a * 10 + (c.toNat - 48)) 0,
             l.drop ds.length)

/-- Gregorian leap-year rule. -/
def isLeapYear (y : Nat) : Bool :=
  (y % 4 = 0 && y % 100 ≠ 0) || y % 400 = 0

/-- Days in a month of the Gregorian calendar. -/
def daysInMonth (y m : Nat) : Nat :=
  if m = 2 then (if isLeapYear y then 29 else 28)
  else if m = 4 ∨ m = 6 ∨ m = 9 ∨ m = 11 then 30
  else 31

/-- Modelled approximation of
`NaiveDateTime::parse_from_str(format!("{due} 00:00:00Z"), "%d.%m.%Y %H:%M:%SZ")`
used by `save_task` (chrono is an external crate): day and month take one or
two digits, the year up to four, separated by literal dots, with no trailing
text, and the triple must be a valid Gregorian calendar date. -/
def parseDueDate (l : List Char) : Option Date :=
  match parseNum 2 l with
  | none => none
  | some (d, r1) =>
    match r1 with
    | '.' :: r2 =>
      match parseNum 2 r2 with
      | none => none
      | some (m, r3) =>
        match r3 with
        | '.' :: r4 =>
          match parseNum 4 r4 with
          | none => none
          | some (y, r5) =>
            if r5 = [] ∧ 1 ≤ m ∧ m ≤ 12 ∧ 1 ≤ d ∧ d ≤ daysInMonth y m
            then some ⟨y, m, d⟩ else none
        | _ => none
    | _ => none

/-- Error string of the failed date validation in `save_task`. -/
def dateFormatError : String := "Date should be in format dd.mm.yyyy"

/-- Error string of the failed title validation in `save_task`. -/
def titleEmptyError : String := "Title cannot be empty"

/-- Error string of the failed description validation in `save_task`. -/
def descriptionEmptyError : String := "Description cannot be empty"

/-- `save_task`, with the outcome of the one store call (`update_task` or
`insert_task`) passed in as `storeOk`.  Validation failures set the matching
error message and return with the dialog still active; on success the error
is cleared and the dialog closed.  When the store call fails the Rust code
panics via `.expect`, modelled as `Except.error` carrying the editor state
exactly as it was at the moment of the abort (no field had been mutated
yet). -/
def saveTaskRun (st : TaskEditDialogState) (storeOk : Bool) :
    Except TaskEditDialogState TaskEditDialogState :=
  let c := st.content.getD TaskEditDialogContent.deflt
  if parseDueDate c.due_date = none then
    .ok { st with error_message := some dateFormatError }
  else if c.title.length = 0 then
    .ok { st with error_message := some titleEmptyError }
  else if c.description.length = 0 then
    .ok { st with error_message := some descriptionEmptyError }
  else if storeOk then
    .ok { st with error_message := none, dialog_active := false }
  else .error st

/-- Editor states reachable through the dialog branch of the `run_app` event
loop (`src/app/ui.rs`): the dialog operations are dispatched only while
`dialog_active`, and `create_a_new_task` / `edit_task` only from list mode.
A `none` result of `input`/`delete_char` (a panic) has no successor. -/
inductive EditReach : TaskEditDialogState → Prop
  | init : EditReach initialEditState
  | create {s} : EditReach s → s.dialog_active = false →
      EditReach (create_a_new_task s)
  | edit {s} (t : AppTask) : EditReach s → s.dialog_active = false →
      EditReach (edit_task s t)
  | down {s} : EditReach s → s.dialog_active = true →
      EditReach (move_cursor_down s)
  | up {s} : EditReach s → s.dialog_active = true →
      EditReach (move_cursor_up s)
  | left {s} : EditReach s → s.dialog_active = true →
      EditReach (move_cursor_left s)
  | right {s} : EditReach s → s.dialog_active = true →
      EditReach (move_cursor_right s)
  | inputStep {s s'} (c : Char) : EditReach s → s.dialog_active = true →
      input s c = some s' → EditReach s'
  | deleteStep {s s'} : EditReach s → s.dialog_active = true →
      delete_char s = some s' → EditReach s'
  | saveStep {s s'} (ok : Bool) : EditReach s → s.dialog_active = true →
      saveTaskRun s ok = Except.ok s' → EditReach s'
  | cancelStep {s} : EditReach s → s.dialog_active = true →
      EditReach (cancel s)

/-- The column part of the spec's cursor invariant. -/
def colInv (st : TaskEditDialogState) : Prop :=
  cursorCol st ≤ (contentAt st (cursorRow st)).length

/-- The full cursor invariant of the spec (§3, §8). -/
def cursorInv (st : TaskEditDialogState) : Prop :=
  cursorRow st ≤ 3 ∧ colInv st

instance (st : TaskEditDialogState) : Decidable (colInv st) := by
  unfold colInv; infer_instance

instance (st : TaskEditDialogState) : Decidable (cursorInv st) := by
  unfold cursorInv; infer_instance

/-- `src/app/task_list.rs` `SortedBy`: the possible sort keys. -/
inductive SortedBy
  | ByDueDate
  | ByName
  | ByPriority
deriving DecidableEq

/-- Rust `String::cmp` is byte-lexicographic, which for UTF-8 coincides with
code-point lexicographic order; `strLe a b` says `a.cmp(b)` is not `Greater`. -/
def strLe : List Char → List Char → Bool
  | [], _ => true
  | _ :: _, [] => false
  | a :: as, b :: bs => if a = b then strLe as bs else decide (a.toNat < b.toNat)

/-- `a.due_date.cmp(&b.due_date)` is not `Greater`: chronological order at
day granularity is lexicographic on (year, month, day). -/
def dateLe (a b : Date) : Bool :=
  decide (a.year < b.year ∨ (a.year = b.year ∧ (a.month < b.month ∨
    (a.month = b.month ∧ a.day ≤ b.day))))

/-- The comparator handed to `sort_by` in `set_sort`, per key. -/
def taskLe (k : SortedBy) (a b : AppTask) : Bool :=
  match k with
  | .ByName => strLe a.title b.title
  | .ByPriority => decide (a.priority ≤ b.priority)
  | .ByDueDate => dateLe a.due_date b.due_date

/-- `src/app/task_list.rs` `TaskList`: `selected` models the ratatui
`ListState` selection; the storage handle is passed separately as the list
of persisted rows. -/
structure TaskList where
  selected : Option Nat
  items : List AppTask
  sorted_by : Option SortedBy
deriving DecidableEq

/-- `Storage::get_all_tasks`, with the store modelled by its row list. -/
def get_all_tasks (db : List AppTask) : List AppTask := db

/-- `Storage::delete_task`: removes the rows whose `Id` equals `tid`. -/
def storage_delete_task (db : List AppTask) (tid : Int) : List AppTask :=
  db.filter fun t => decide (t.id ≠ some tid)

/-- `TaskList::update_items`: replaces the in-memory items with the rows
read back from storage; the selection is untouched. -/
def update_items (tl : TaskList) (db : List AppTask) : TaskList :=
  { tl with items := get_all_tasks db }

/-- `TaskList::next`: selection moves forward with wraparound; `None` and
the empty collection both select index 0. -/
def next (tl : TaskList) : TaskList :=
  { tl with
    selected :=
      some (match tl.selected with
            | some i =>
              if tl.items.length = 0 ∨ i ≥ tl.items.length - 1 then 0
              else i + 1
            | none => 0) }

/-- `TaskList::previous`: selection moves backward with wraparound. -/
def previous (tl : TaskList) : TaskList :=
  { tl with
    selected :=
      some (match tl.selected with
            | some i =>
              if tl.items.length = 0 then 0
              else if i = 0 then tl.items.length - 1
              else i - 1
            | none => 0) }

/-- `TaskList::unselect`. -/
def unselect (tl : TaskList) : TaskList := { tl with selected := none }

/-- `TaskList::set_sort`: if the requested key is already the active one the
items are literally reversed, otherwise a full stable sort by the requested
key is performed; the key is recorded in both cases. -/
def set_sort (tl : TaskList) (k : SortedBy) : TaskList :=
  if tl.sorted_by = some k then
    { tl with items := tl.items.reverse, sorted_by := some k }
  else
    { tl with items := tl.items.mergeSort (taskLe k), sorted_by := some k }

/-- `TaskList::delete_selected` together with the
`apply_for_selected_task` helper it goes through: when an item is selected
its row (`id` defaulting to `-1` when missing) is deleted from storage, and
in every case the items are reloaded from storage afterwards.  Returns the
updated list and the updated store.  The selection is never touched. -/
def delete_selected (tl : TaskList) (db : List AppTask) :
    TaskList × List AppTask :=
  let db' :=
    match tl.selected with
    | some i =>
      match tl.items.get? i with
      | some t => storage_delete_task db (t.id.getD (-1))
      | none => db
    | none => db
  (update_items tl db', db')

/-- The reachable state obtained by: open the create dialog, type `a` into
the title, move down, type `bb` into the description, move up.  The cursor
column (2) now exceeds the title length (1). -/
def stuckColumnState : TaskEditDialogState :=
  ⟨true, none, some ⟨['a'], ['b', 'b'], [], 0⟩, none, some (2, 0)⟩

/-- Concrete task used in the task-list counterexamples. -/
def sampleTask (n : Int) : AppTask := ⟨some n, ['t'], ['d'], ⟨2024, 1, 1⟩, 0, false⟩

def twoTaskList : TaskList := ⟨none, [sampleTask 1, sampleTask 2], none⟩

/-- State used to witness C4: invalid due-date text `31.02.2024`. -/
def c4WitnessState : TaskEditDialogState :=
  ⟨true, none, some ⟨['a'], ['b'], "31.02.2024".data, 0⟩, none, some (0, 0)⟩

/-- State used to witness C5: valid content in every field. -/
def c5WitnessState : TaskEditDialogState :=
  ⟨true, some 7, some ⟨['a'], ['b'], "01.01.2024".data, 1⟩, none, some (0, 0)⟩

/-- The row-0 placeholder text of `get_task_edit_ui`. -/
def placeholderTitle : List Char := "My task name".data

/-- The cursor that `get_task_edit_ui` renders:
`cursor_position.unwrap_or((lines[0].placeholder.len(), 0))`. -/
def uiCursor (st : TaskEditDialogState) : Nat × Nat :=
  st.cursor_position.getD (placeholderTitle.length, 0)

/-- A closed dialog left over by a previous session whose cursor was moved
to row 1: open create, move down, Esc. -/
def staleCursorState : TaskEditDialogState :=
  cancel (move_cursor_down (create_a_new_task initialEditState))

/-- The open dialog state after opening create on a fresh app and
committing immediately (empty due date fails validation, error set). -/
def errEditState : TaskEditDialogState :=
  ⟨true, none, some TaskEditDialogContent.deflt, some dateFormatError, none⟩

def oneTaskDb : List AppTask := [sampleTask 1]

def oneTaskList : TaskList := ⟨some 0, oneTaskDb, none⟩

/-- A stored task whose priority (10) is outside the single-digit range —
such rows are representable in the store schema (`PriorityLevel INT`). -/
def priorityTenTask : AppTask := ⟨some 1, [], [], ⟨2024, 1, 1⟩, 10, false⟩

/-- The editor opened on `priorityTenTask` with the cursor moved to
column 1 of the priority row (row 3, whose text `10` has length 2). -/
def priorityTenState : TaskEditDialogState :=
  ⟨true, some 1, some ⟨[], [], formatDate ⟨2024, 1, 1⟩, 10⟩, none,
   some (1, 3)⟩

/-- State used to witness C9: single-digit priority 1 with the cursor on
row 3. -/
def c9WitnessState : TaskEditDialogState :=
  ⟨true, none, some ⟨['a'], ['b'], [], 1⟩, none, some (0, 3)⟩

example : (contentAt (create_a_new_task initialEditState) 3).length = 1 :=
  rfl

example : parseDueDate ("31.02.2024".data) = none := by decide

example : parseDueDate ("29.02.2024".data) = some ⟨2024, 2, 29⟩ := by decide

example : parseDueDate ("01.2024".data) = none := by decide

example : formatDate ⟨2024, 1, 1⟩ = "01.01.2024".data := by decide

theorem natToTextAux_ne_nil (fuel n : Nat) (h : 0 < fuel) :
    natToTextAux fuel n ≠ [] := by
  cases fuel with
  | zero => omega
  | succ fuel =>
    unfold natToTextAux
    split
    · simp
    · simp

theorem intToText_ne_nil (p : Int) : intToText p ≠ [] := by
  unfold intToText
  split
  · simp
  · exact natToTextAux_ne_nil _ _ (Nat.succ_pos _)

theorem cursorRow_congr {s s' : TaskEditDialogState}
    (h : s'.cursor_position = s.cursor_position) :
    cursorRow s' = cursorRow s := by
  unfold cursorRow cursorOr; rw [h]

theorem cursorRow_move_cursor_right (s : TaskEditDialogState) :
    cursorRow (move_cursor_right s) = cursorRow s := rfl

theorem colInv_move_cursor_right (s : TaskEditDialogState) :
    colInv (move_cursor_right s) := Nat.min_le_right _ _

theorem cursorInv_move_cursor_down (s : TaskEditDialogState) :
    cursorInv (move_cursor_down s) :=
  ⟨Nat.min_le_right _ _, Nat.min_le_right _ _⟩

theorem cursorRow_move_cursor_left (s : TaskEditDialogState) :
    cursorRow (move_cursor_left s) = cursorRow s := by
  unfold move_cursor_left; split <;> rfl

theorem cursorInv_move_cursor_left {s : TaskEditDialogState}
    (h : cursorInv s) : cursorInv (move_cursor_left s) := by
  unfold move_cursor_left; split
  · exact ⟨h.1, le_trans (Nat.sub_le _ _) h.2⟩
  · exact h

theorem cursorRow_move_cursor_up_le (s : TaskEditDialogState) :
    cursorRow (move_cursor_up s) ≤ cursorRow s := by
  unfold move_cursor_up; split
  · exact Nat.sub_le _ _
  · exact le_rfl

theorem cursorInv_edit_task (s : TaskEditDialogState) (t : AppTask) :
    cursorInv (edit_task s t) := ⟨Nat.zero_le _, Nat.zero_le _⟩

theorem cursorRow_inputReset (s : TaskEditDialogState) :
    cursorRow (inputReset s) = cursorRow s := by
  unfold inputReset; split <;> rfl

theorem colInv_inputReset {s : TaskEditDialogState} (h : colInv s) :
    colInv (inputReset s) := by
  unfold inputReset; split
  · exact Nat.zero_le _
  · exact h

theorem input_shape {s : TaskEditDialogState} {c : Char}
    {s' : TaskEditDialogState} (h : input s c = some s') :
    s' = inputReset s ∨
      ∃ s2 : TaskEditDialogState, s' = move_cursor_right s2 ∧
        cursorRow s2 = cursorRow s := by
  simp only [input] at h
  cases hc : (inputReset s).content with
  | none => rw [hc] at h; exact Or.inl (Option.some_injective _ h).symm
  | some ct =>
    rw [hc] at h
    simp only at h
    split at h
    · rw [Option.map_eq_some'] at h
      obtain ⟨l, _, rfl⟩ := h
      exact Or.inr ⟨_, rfl, cursorRow_inputReset s⟩
    · split at h
      · rw [Option.map_eq_some'] at h
        obtain ⟨l, _, rfl⟩ := h
        exact Or.inr ⟨_, rfl, cursorRow_inputReset s⟩
      · split at h
        · rw [Option.map_eq_some'] at h
          obtain ⟨l, _, rfl⟩ := h
          exact Or.inr ⟨_, rfl, cursorRow_inputReset s⟩
        · split at h
          · split at h
            · exact Or.inr ⟨_, (Option.some_injective _ h).symm,
                cursorRow_inputReset s⟩
            · exact Or.inr ⟨_, (Option.some_injective _ h).symm,
                cursorRow_inputReset s⟩
          · exact Or.inr ⟨_, (Option.some_injective _ h).symm,
              cursorRow_inputReset s⟩

theorem cursorRow_input {s : TaskEditDialogState} {c : Char}
    {s' : TaskEditDialogState} (h : input s c = some s') :
    cursorRow s' = cursorRow s := by
  rcases input_shape h with h1 | ⟨s2, h2, h3⟩
  · rw [h1, cursorRow_inputReset]
  · rw [h2, cursorRow_move_cursor_right, h3]

theorem cursorInv_input {s : TaskEditDialogState} {c : Char}
    {s' : TaskEditDialogState} (hs : cursorInv s) (h : input s c = some s') :
    cursorInv s' := by
  rcases input_shape h with h1 | ⟨s2, h2, h3⟩
  · subst h1
    exact ⟨by rw [cursorRow_inputReset]; exact hs.1, colInv_inputReset hs.2⟩
  · subst h2
    exact ⟨by rw [cursorRow_move_cursor_right, h3]; exact hs.1,
      colInv_move_cursor_right _⟩

theorem removeAt_eq_some {l : List Char} {i : Nat} {l' : List Char}
    (h : removeAt l i = some l') :
    i < l.length ∧ l'.length + 1 = l.length := by
  unfold removeAt at h
  split at h
  · obtain rfl := Option.some_injective _ h.symm
    refine ⟨by assumption, ?_⟩
    simp only [List.length_append, List.length_take, List.length_drop]
    omega
  · exact absurd h (by simp)

theorem insertAt_eq_some {l : List Char} {i : Nat} {c : Char}
    {l' : List Char} (h : insertAt l i c = some l') :
    i ≤ l.length ∧ l'.length = l.length + 1 := by
  unfold insertAt at h
  split at h
  · obtain rfl := Option.some_injective _ h.symm
    refine ⟨by assumption, ?_⟩
    simp only [List.length_append, List.length_take, List.length_cons,
      List.length_drop]
    omega
  · exact absurd h (by simp)

theorem cursorRow_delete_char {s s' : TaskEditDialogState}
    (h : delete_char s = some s') : cursorRow s' = cursorRow s := by
  simp only [delete_char] at h
  split at h
  · rw [← Option.some_injective _ h]
  · cases hc : s.content with
    | none => rw [hc] at h; rw [← Option.some_injective _ h]
    | some ct =>
      rw [hc] at h
      simp only at h
      split at h
      · rw [Option.map_eq_some'] at h
        obtain ⟨l, _, rfl⟩ := h
        exact cursorRow_move_cursor_left _
      · split at h
        · rw [Option.map_eq_some'] at h
          obtain ⟨l, _, rfl⟩ := h
          exact cursorRow_move_cursor_left _
        · split at h
          · rw [Option.map_eq_some'] at h
            obtain ⟨l, _, rfl⟩ := h
            exact cursorRow_move_cursor_left _
          · rw [← Option.some_injective _ h]
            exact cursorRow_move_cursor_left _

theorem contentAt_set_cursor (s : TaskEditDialogState)
    (x : Option (Nat × Nat)) (y : Nat) :
    contentAt { s with cursor_position := x } y = contentAt s y := rfl

theorem cursorInv_move_left_slack {s : TaskEditDialogState}
    (hrow : cursorRow s ≤ 3)
    (hcol : cursorCol s ≤ (contentAt s (cursorRow s)).length + 1) :
    cursorInv (move_cursor_left s) := by
  unfold cursorInv colInv at *
  unfold move_cursor_left
  split
  · refine ⟨hrow, ?_⟩
    simp only [contentAt_set_cursor]
    unfold cursorRow cursorCol cursorOr at *
    simp only [Option.getD_some]
    omega
  · exact ⟨hrow, by unfold cursorRow cursorCol cursorOr at *; omega⟩

theorem cursorInv_delete_char {s s' : TaskEditDialogState}
    (hs : cursorInv s) (h : delete_char s = some s') : cursorInv s' := by
  simp only [delete_char] at h
  split at h
  · rw [← Option.some_injective _ h]; exact hs
  · rename_i hcol
    cases hc : s.content with
    | none => rw [hc] at h; rw [← Option.some_injective _ h]; exact hs
    | some ct =>
      rw [hc] at h
      simp only at h
      split at h
      · rename_i hrow
        rw [Option.map_eq_some'] at h
        obtain ⟨l, hrem, rfl⟩ := h
        obtain ⟨hx, hlen⟩ := removeAt_eq_some hrem
        refine cursorInv_move_left_slack hs.1 ?_
        have hA : contentAt s 0 = ct.title := by
          unfold contentAt; rw [hc]; rfl
        rw [hrow, hA] at hx
        show (cursorOr s).1 ≤
          (contentTextAt { ct with title := l } (cursorOr s).2).length + 1
        rw [hrow]
        show (cursorOr s).1 ≤ l.length + 1
        split at hx <;> omega
      · split at h
        · rename_i hrow
          rw [Option.map_eq_some'] at h
          obtain ⟨l, hrem, rfl⟩ := h
          obtain ⟨hx, hlen⟩ := removeAt_eq_some hrem
          refine cursorInv_move_left_slack hs.1 ?_
          have hA : contentAt s 1 = ct.description := by
            unfold contentAt; rw [hc]; rfl
          rw [hrow, hA] at hx
          show (cursorOr s).1 ≤
            (contentTextAt { ct with description := l }
              (cursorOr s).2).length + 1
          rw [hrow]
          show (cursorOr s).1 ≤ l.length + 1
          split at hx <;> omega
        · split at h
          · rename_i hrow
            rw [Option.map_eq_some'] at h
            obtain ⟨l, hrem, rfl⟩ := h
            obtain ⟨hx, hlen⟩ := removeAt_eq_some hrem
            refine cursorInv_move_left_slack hs.1 ?_
            have hA : contentAt s 2 = ct.due_date := by
              unfold contentAt; rw [hc]; rfl
            rw [hrow, hA] at hx
            show (cursorOr s).1 ≤
              (contentTextAt { ct with due_date := l }
                (cursorOr s).2).length + 1
            rw [hrow]
            show (cursorOr s).1 ≤ l.length + 1
            split at hx <;> omega
          · rw [← Option.some_injective _ h]
            exact cursorInv_move_left_slack hs.1
              (le_trans hs.2 (Nat.le_succ _))

theorem saveTaskRun_ok_frame {s : TaskEditDialogState} {ok : Bool}
    {s' : TaskEditDialogState} (h : saveTaskRun s ok = Except.ok s') :
    s'.cursor_position = s.cursor_position ∧ s'.content = s.content := by
  simp only [saveTaskRun] at h
  split at h
  · obtain rfl := Except.ok.inj h.symm; exact ⟨rfl, rfl⟩
  · split at h
    · obtain rfl := Except.ok.inj h.symm; exact ⟨rfl, rfl⟩
    · split at h
      · obtain rfl := Except.ok.inj h.symm; exact ⟨rfl, rfl⟩
      · split at h
        · obtain rfl := Except.ok.inj h.symm; exact ⟨rfl, rfl⟩
        · exact absurd h (by simp)

theorem cursorInv_frame {s s' : TaskEditDialogState}
    (hcur : s'.cursor_position = s.cursor_position)
    (hct : s'.content = s.content) (h : cursorInv s) : cursorInv s' := by
  unfold cursorInv colInv cursorRow cursorCol cursorOr contentAt at *
  rw [hcur, hct]
  exact h

theorem editReach_row_le {s : TaskEditDialogState} (h : EditReach s) :
    cursorRow s ≤ 3 := by
  induction h with
  | init => exact Nat.zero_le _
  | create _ _ ih => exact ih
  | edit t _ _ => exact Nat.zero_le _
  | down => exact Nat.min_le_right _ _
  | up _ _ ih => exact le_trans (cursorRow_move_cursor_up_le _) ih
  | left _ _ ih => rw [cursorRow_move_cursor_left]; exact ih
  | right _ _ ih => rw [cursorRow_move_cursor_right]; exact ih
  | inputStep c _ _ heq ih => rw [cursorRow_input heq]; exact ih
  | deleteStep _ _ heq ih => rw [cursorRow_delete_char heq]; exact ih
  | saveStep ok _ _ heq ih =>
      rw [cursorRow_congr (saveTaskRun_ok_frame heq).1]; exact ih
  | cancelStep _ _ ih => exact ih

theorem editReach_stuckColumnState : EditReach stuckColumnState := by
  have h1 : EditReach (create_a_new_task initialEditState) :=
    EditReach.create EditReach.init rfl
  have h2 : EditReach
      ⟨true, none, some ⟨['a'], [], [], 0⟩, none, some (1, 0)⟩ :=
    EditReach.inputStep 'a' h1 rfl (by decide)
  have e3 : move_cursor_down
      (⟨true, none, some ⟨['a'], [], [], 0⟩, none, some (1, 0)⟩ :
        TaskEditDialogState) =
      ⟨true, none, some ⟨['a'], [], [], 0⟩, none, some (0, 1)⟩ := by decide
  have h3 : EditReach
      ⟨true, none, some ⟨['a'], [], [], 0⟩, none, some (0, 1)⟩ :=
    e3 ▸ EditReach.down h2 rfl
  have h4 : EditReach
      ⟨true, none, some ⟨['a'], ['b'], [], 0⟩, none, some (1, 1)⟩ :=
    EditReach.inputStep 'b' h3 rfl (by decide)
  have h5 : EditReach
      ⟨true, none, some ⟨['a'], ['b', 'b'], [], 0⟩, none, some (2, 1)⟩ :=
    EditReach.inputStep 'b' h4 rfl (by decide)
  have e6 : move_cursor_up
      (⟨true, none, some ⟨['a'], ['b', 'b'], [], 0⟩, none, some (2, 1)⟩ :
        TaskEditDialogState) = stuckColumnState := by decide
  exact e6 ▸ EditReach.up h5 rfl

/-- Claim C1, counterexample: the claimed invariant
`cursor.column ≤ length(fields[cursor.row])` fails on a reachable state —
after `move_up` the column 2 exceeds the title length 1, exactly because
`move_up` does not reclamp the column. -/
theorem c1_counterexample : EditReach stuckColumnState ∧
    ¬ colInv stuckColumnState :=
  ⟨editReach_stuckColumnState, by decide⟩

/-- Claim C1 (amended): for every reachable editor state the row bound
`cursor.row ≤ 3` holds; the column bound `cursor.column ≤
length(fields[cursor.row])` is preserved (or established) by every
operation except `move_up`: `move_down`, `move_cursor_left`,
`move_cursor_right`, `edit_task`, successful `input`, successful
`delete_char` and a successful `save_task` all leave a state satisfying the
full cursor invariant when started from one. -/
theorem c1_cursor_invariant_amended :
    (∀ s : TaskEditDialogState, EditReach s → cursorRow s ≤ 3) ∧
    (∀ s : TaskEditDialogState, cursorInv s →
      cursorInv (move_cursor_down s) ∧
      cursorInv (move_cursor_left s) ∧
      cursorInv (move_cursor_right s) ∧
      (∀ t : AppTask, cursorInv (edit_task s t)) ∧
      cursorInv (cancel s) ∧
      (∀ (c : Char) (s' : TaskEditDialogState),
        input s c = some s' → cursorInv s') ∧
      (∀ s' : TaskEditDialogState,
        delete_char s = some s' → cursorInv s') ∧
      (∀ (ok : Bool) (s' : TaskEditDialogState),
        saveTaskRun s ok = Except.ok s' → cursorInv s')) := by
  constructor
  · exact fun s h => editReach_row_le h
  · intro s hs
    refine ⟨cursorInv_move_cursor_down s, cursorInv_move_cursor_left hs,
      ⟨?_, colInv_move_cursor_right s⟩, fun t => cursorInv_edit_task s t,
      hs, fun c s' h => cursorInv_input hs h,
      fun s' h => cursorInv_delete_char hs h,
      fun ok s' h => cursorInv_frame (saveTaskRun_ok_frame h).1
        (saveTaskRun_ok_frame h).2 hs⟩
    rw [cursorRow_move_cursor_right]; exact hs.1

/-- Witness for C1 (amended) at the initial state. -/
theorem c1_witness :
    cursorRow initialEditState ≤ 3 ∧
      cursorInv (move_cursor_down initialEditState) :=
  ⟨c1_cursor_invariant_amended.1 initialEditState EditReach.init,
   (c1_cursor_invariant_amended.2 initialEditState (by decide)).1⟩

/-- Claim C10: contrary to the claim, `delete_char` and `input` are NOT
total on reachable editor states.  On the reachable state reached by typing
`a` into the title, `bb` into the description and pressing Up (cursor
column 2, title length 1), `delete_char` calls `String::remove` at index 1
of a 1-char buffer and `input` calls `String::insert` at index 2 of a
1-char buffer; both indices are out of bounds, so the Rust code panics
(modelled by `none`). -/
theorem c10_editor_ops_can_abort :
    EditReach stuckColumnState ∧ stuckColumnState.dialog_active = true ∧
      delete_char stuckColumnState = none ∧
      input stuckColumnState 'x' = none :=
  ⟨editReach_stuckColumnState, rfl, by decide, by decide⟩

/-- Claim C2: after `set_sort(K)` the key `K` is recorded as active, so a
second `set_sort(K)` takes the toggle branch and performs a literal
reversal of the in-memory order — for every collection state and key. -/
theorem c2_sort_toggle_reverse (tl : TaskList) (k : SortedBy) :
    (set_sort tl k).sorted_by = some k ∧
    set_sort (set_sort tl k) k =
      { set_sort tl k with items := (set_sort tl k).items.reverse } := by
  have h1 : (set_sort tl k).sorted_by = some k := by
    unfold set_sort; split <;> rfl
  refine ⟨h1, ?_⟩
  rcases e : set_sort tl k with ⟨sel, items, sb⟩
  rw [e] at h1
  simp only at h1
  subst h1
  unfold set_sort
  rw [if_pos rfl]

theorem next_iter_aux (items : List AppTask) (sb : Option SortedBy) :
    ∀ d j : Nat, j + d + 1 = items.length →
      next^[d + 1] ⟨some j, items, sb⟩ = ⟨some 0, items, sb⟩ := by
  intro d
  induction d with
  | zero =>
    intro j hj
    rw [Function.iterate_one]
    show (⟨some (if items.length = 0 ∨ j ≥ items.length - 1 then 0
      else j + 1), items, sb⟩ : TaskList) = ⟨some 0, items, sb⟩
    rw [if_pos (Or.inr (by omega))]
  | succ d ih =>
    intro j hj
    rw [Function.iterate_succ_apply]
    have hnext : next ⟨some j, items, sb⟩ = ⟨some (j + 1), items, sb⟩ := by
      show (⟨some (if items.length = 0 ∨ j ≥ items.length - 1 then 0
        else j + 1), items, sb⟩ : TaskList) = ⟨some (j + 1), items, sb⟩
      rw [if_neg (by omega)]
    rw [hnext]
    exact ih (j + 1) (by omega)

/-- Claim C3 (amended): from the unselected state, `len + 1` applications
of `next` (not `len`) land back on index 0, the selection produced by a
single application. -/
theorem c3_select_next_wraparound_amended (tl : TaskList)
    (h0 : tl.selected = none) (hne : 0 < tl.items.length) :
    (next^[tl.items.length + 1] tl).selected = (next tl).selected := by
  rcases tl with ⟨sel, items, sb⟩
  simp only at h0 hne ⊢
  subst h0
  have h1 : next ⟨none, items, sb⟩ = ⟨some 0, items, sb⟩ := rfl
  rw [Function.iterate_succ_apply, h1]
  have h2 := next_iter_aux items sb (items.length - 1) 0 (by omega)
  rw [show items.length = items.length - 1 + 1 from by omega, h2]

/-- Claim C3, counterexample: on a 2-element collection, `len = 2`
applications of `next` from unselected select index 1, while a single
application selects index 0 — the claimed equality fails. -/
theorem c3_counterexample :
    (next^[2] twoTaskList).selected = some 1 ∧
    (next twoTaskList).selected = some 0 ∧
    ¬ ((next^[2] twoTaskList).selected = (next twoTaskList).selected) :=
  ⟨by decide, by decide, by decide⟩

/-- Witness for C3 (amended) on a 2-element collection. -/
theorem c3_witness :
    (next^[twoTaskList.items.length + 1] twoTaskList).selected =
      (next twoTaskList).selected :=
  c3_select_next_wraparound_amended twoTaskList rfl (by decide)

/-- Claim C4: `commit` validates date, then title, then description, in
that order; the first failure sets exactly its message and returns with the
state otherwise untouched (so the dialog stays open), independently of the
store outcome (no persistence call is made); in particular the due-date
text `31.02.2024` always produces the date error, and an empty title always
leaves an error set. -/
theorem c4_commit_validation_order (st : TaskEditDialogState) (ok : Bool) :
    (parseDueDate (st.content.getD TaskEditDialogContent.deflt).due_date
        = none →
      saveTaskRun st ok =
        Except.ok { st with error_message := some dateFormatError }) ∧
    (parseDueDate (st.content.getD TaskEditDialogContent.deflt).due_date
        ≠ none →
      (st.content.getD TaskEditDialogContent.deflt).title = [] →
      saveTaskRun st ok =
        Except.ok { st with error_message := some titleEmptyError }) ∧
    (parseDueDate (st.content.getD TaskEditDialogContent.deflt).due_date
        ≠ none →
      (st.content.getD TaskEditDialogContent.deflt).title ≠ [] →
      (st.content.getD TaskEditDialogContent.deflt).description = [] →
      saveTaskRun st ok =
        Except.ok { st with error_message := some descriptionEmptyError }) ∧
    ((st.content.getD TaskEditDialogContent.deflt).due_date =
        "31.02.2024".data →
      saveTaskRun st ok =
        Except.ok { st with error_message := some dateFormatError }) ∧
    ((st.content.getD TaskEditDialogContent.deflt).title = [] →
      ∃ m : String, saveTaskRun st ok =
        Except.ok { st with error_message := some m }) := by
  refine ⟨?_, ?_, ?_, ?_, ?_⟩
  · intro hp
    simp only [saveTaskRun]
    rw [if_pos hp]
  · intro hp ht
    simp only [saveTaskRun]
    rw [if_neg hp, if_pos (by rw [ht]; rfl)]
  · intro hp ht hd
    simp only [saveTaskRun]
    rw [if_neg hp, if_neg (fun hh => ht (List.length_eq_zero.mp hh)),
      if_pos (by rw [hd]; rfl)]
  · intro hdd
    have hp : parseDueDate
        (st.content.getD TaskEditDialogContent.deflt).due_date = none := by
      rw [hdd]; decide
    simp only [saveTaskRun]
    rw [if_pos hp]
  · intro ht
    by_cases hp : parseDueDate
        (st.content.getD TaskEditDialogContent.deflt).due_date = none
    · exact ⟨dateFormatError, by simp only [saveTaskRun]; rw [if_pos hp]⟩
    · exact ⟨titleEmptyError,
        by simp only [saveTaskRun]; rw [if_neg hp, if_pos (by rw [ht]; rfl)]⟩

/-- Witness for C4: committing with due-date text `31.02.2024` yields the
date-format error with the dialog still active. -/
theorem c4_witness :
    saveTaskRun c4WitnessState true =
      Except.ok { c4WitnessState with
        error_message := some dateFormatError } :=
  (c4_commit_validation_order c4WitnessState true).2.2.2.1 (by decide)

/-- Claim C5: when validation passes and the store call fails, `save_task`
panics through `.expect` before mutating anything, so the editor state at
the abort is exactly the entry state: the dialog is still open and no error
message has been set by the failure. -/
theorem c5_store_failure_aborts_unchanged (st : TaskEditDialogState)
    (hp : parseDueDate
      (st.content.getD TaskEditDialogContent.deflt).due_date ≠ none)
    (ht : (st.content.getD TaskEditDialogContent.deflt).title ≠ [])
    (hd : (st.content.getD TaskEditDialogContent.deflt).description ≠ []) :
    saveTaskRun st false = Except.error st := by
  simp only [saveTaskRun]
  rw [if_neg hp, if_neg (fun hh => ht (List.length_eq_zero.mp hh)),
    if_neg (fun hh => hd (List.length_eq_zero.mp hh))]
  rfl

/-- Witness for C5 on a fully valid dialog state. -/
theorem c5_witness :
    saveTaskRun c5WitnessState false = Except.error c5WitnessState :=
  c5_store_failure_aborts_unchanged c5WitnessState (by decide) (by decide)
    (by decide)

/-- Claim C6, counterexample: `create_a_new_task` does not touch the stored
cursor, so reopening after a session that left the cursor at `(0, 1)` does
NOT reset it to row 0 / placeholder-length column. -/
theorem c6_counterexample :
    EditReach staleCursorState ∧
    staleCursorState.dialog_active = false ∧
    (create_a_new_task staleCursorState).cursor_position = some (0, 1) ∧
    some ((0 : Nat), (1 : Nat)) ≠ some (placeholderTitle.length, (0 : Nat)) := by
  refine ⟨?_, by decide, by decide, by decide⟩
  exact EditReach.cancelStep
    (EditReach.down (EditReach.create EditReach.init rfl) rfl) rfl

/-- Claim C6 (amended): `open_create` activates the dialog in create mode
with all four buffers reset to their defaults but leaves `cursor_position`
(and `error_message`) untouched; only when no cursor was ever stored
(`none`) does the UI render the cursor at row 0 with column equal to the
length of the row-0 placeholder. -/
theorem c6_open_create_amended (st : TaskEditDialogState) :
    create_a_new_task st =
      { st with dialog_active := true, task_id := none,
                content := some TaskEditDialogContent.deflt } ∧
    (st.cursor_position = none →
      uiCursor (create_a_new_task st) = (placeholderTitle.length, 0)) := by
  refine ⟨rfl, fun h => ?_⟩
  have e : (create_a_new_task st).cursor_position = st.cursor_position := rfl
  unfold uiCursor
  rw [e, h]
  rfl

/-- Witness for C6 (amended) at the never-opened initial state. -/
theorem c6_witness :
    create_a_new_task initialEditState =
      ⟨true, none, some TaskEditDialogContent.deflt, none, none⟩ ∧
    uiCursor (create_a_new_task initialEditState) =
      (placeholderTitle.length, 0) := by
  obtain ⟨h1, h2⟩ := c6_open_create_amended initialEditState
  exact ⟨h1, h2 rfl⟩

/-- Claim C7, counterexample: Esc merely clears `dialog_active`; it neither
clears the error message nor touches the buffers, and the stale error from
the cancelled session is still present in a subsequently opened create
dialog (where `get_task_edit_ui` displays any `Some` error). -/
theorem c7_counterexample :
    EditReach errEditState ∧
    saveTaskRun (create_a_new_task initialEditState) true =
      Except.ok errEditState ∧
    (cancel errEditState).dialog_active = false ∧
    (cancel errEditState).error_message = some dateFormatError ∧
    (create_a_new_task (cancel errEditState)).error_message =
      some dateFormatError := by
  refine ⟨?_, rfl, rfl, rfl, rfl⟩
  exact EditReach.saveStep true
    (EditReach.create EditReach.init rfl) rfl rfl

/-- Claim C7 (amended): `cancel` is exactly `dialog_active := false`; the
buffers are only discarded by the next `open_create` (which resets the
content to the default), while the error message and the stored cursor of
the cancelled session survive into the reopened dialog. -/
theorem c7_cancel_amended (st : TaskEditDialogState) :
    cancel st = { st with dialog_active := false } ∧
    (create_a_new_task (cancel st)).content =
      some TaskEditDialogContent.deflt ∧
    (create_a_new_task (cancel st)).error_message = st.error_message ∧
    (create_a_new_task (cancel st)).cursor_position = st.cursor_position :=
  ⟨rfl, rfl, rfl, rfl⟩

/-- Claim C8, counterexample: after `delete_selected` removes the selected
(and only) task and reloads, the selection still holds index 0 — it is not
cleared. -/
theorem c8_counterexample :
    (delete_selected oneTaskList oneTaskDb).1.items = [] ∧
    (delete_selected oneTaskList oneTaskDb).1.selected = some 0 ∧
    ¬ ((delete_selected oneTaskList oneTaskDb).1.selected = none) :=
  ⟨by decide, by decide, by decide⟩

/-- Claim C8 (amended): with a valid selection, `delete_selected` persists
a delete for the selected task's id (a missing id becomes the harmless
identity `-1`), reloads the items from storage — and leaves the selection
index unchanged rather than clearing it. -/
theorem c8_delete_selected_amended (tl : TaskList) (db : List AppTask)
    (i : Nat) (t : AppTask) (hsel : tl.selected = some i)
    (hit : tl.items.get? i = some t) :
    delete_selected tl db =
      ({ tl with items := storage_delete_task db (t.id.getD (-1)) },
       storage_delete_task db (t.id.getD (-1))) ∧
    (delete_selected tl db).1.selected = tl.selected := by
  rcases tl with ⟨sel, items, sb⟩
  simp only at hsel hit ⊢
  subst hsel
  unfold delete_selected
  simp only
  rw [hit]
  exact ⟨rfl, rfl⟩

/-- Witness for C8 (amended) on a one-task collection. -/
theorem c8_witness :
    delete_selected oneTaskList oneTaskDb =
      ({ oneTaskList with
          items := storage_delete_task oneTaskDb ((sampleTask 1).id.getD (-1)) },
       storage_delete_task oneTaskDb ((sampleTask 1).id.getD (-1))) :=
  (c8_delete_selected_amended oneTaskList oneTaskDb 0 (sampleTask 1)
    rfl rfl).1

theorem editReach_priorityTenState : EditReach priorityTenState := by
  have h1 : EditReach (edit_task initialEditState priorityTenTask) :=
    EditReach.edit priorityTenTask EditReach.init rfl
  have e2 : move_cursor_down (edit_task initialEditState priorityTenTask) =
      ⟨true, some 1, some ⟨[], [], formatDate ⟨2024, 1, 1⟩, 10⟩, none,
       some (0, 1)⟩ := by decide
  have h2 := e2 ▸ EditReach.down h1 rfl
  have e3 : move_cursor_down
      (⟨true, some 1, some ⟨[], [], formatDate ⟨2024, 1, 1⟩, 10⟩, none,
        some (0, 1)⟩ : TaskEditDialogState) =
      ⟨true, some 1, some ⟨[], [], formatDate ⟨2024, 1, 1⟩, 10⟩, none,
       some (0, 2)⟩ := by decide
  have h3 := e3 ▸ EditReach.down h2 rfl
  have e4 : move_cursor_down
      (⟨true, some 1, some ⟨[], [], formatDate ⟨2024, 1, 1⟩, 10⟩, none,
        some (0, 2)⟩ : TaskEditDialogState) =
      ⟨true, some 1, some ⟨[], [], formatDate ⟨2024, 1, 1⟩, 10⟩, none,
       some (0, 3)⟩ := by decide
  have h4 := e4 ▸ EditReach.down h3 rfl
  have e5 : move_cursor_right
      (⟨true, some 1, some ⟨[], [], formatDate ⟨2024, 1, 1⟩, 10⟩, none,
        some (0, 3)⟩ : TaskEditDialogState) = priorityTenState := by decide
  exact e5 ▸ EditReach.right h4 rfl

/-- Claim C9, counterexample: on the priority row with stored priority 10
(text `10`, length 2) and column 1, a non-digit char leaves the priority
unchanged but moves the cursor to column 2 — the column is clamped to the
length of the row text, not to 1 as claimed. -/
theorem c9_counterexample :
    EditReach priorityTenState ∧
    input priorityTenState 'x' =
      some { priorityTenState with cursor_position := some (2, 3) } ∧
    ¬ ((2 : Nat) ≤ 1) :=
  ⟨editReach_priorityTenState, by decide, by decide⟩

/-- Claim C9 (amended): on row 3 a digit `'0'`/`'1'`/`'2'` replaces the
whole priority with its value regardless of the prior value (after which
the row text has length 1 and the cursor column is clamped to 1), any other
char leaves the state's content — priority and the other three buffers —
untouched, with the cursor column clamped to the length of the priority
text (1 whenever the stored priority is a single digit). -/
theorem c9_priority_insert_amended (st : TaskEditDialogState)
    (ct : TaskEditDialogContent) (c : Char) (hct : st.content = some ct)
    (hrow : cursorRow st = 3) :
    ((c = '0' ∨ c = '1' ∨ c = '2') →
      input st c = some (move_cursor_right
        { st with content := some { ct with priority :=
            (if c = '0' then 0 else if c = '1' then 1 else 2) } }) ∧
      (input st c).map cursorCol = some (min (cursorCol st + 1) 1)) ∧
    (¬ (c = '0' ∨ c = '1' ∨ c = '2') →
      input st c = some (move_cursor_right st) ∧
      (input st c).map cursorCol =
        some (min (cursorCol st + 1) (intToText ct.priority).length)) := by
  unfold cursorRow at hrow
  have hca : contentAt st 3 = intToText ct.priority := by
    unfold contentAt
    rw [hct]
    rfl
  have hne : ¬ (contentAt st (cursorOr st).2).length = 0 := by
    rw [hrow, hca]
    simp [intToText_ne_nil]
  have hst1 : inputReset st = st := by
    unfold inputReset
    rw [if_neg hne]
  have hin : input st c =
      (if c = '0' ∨ c = '1' ∨ c = '2' then
        some (move_cursor_right
          { st with content := some { ct with priority :=
              (if c = '0' then 0 else if c = '1' then 1 else 2) } })
      else some (move_cursor_right st)) := by
    simp only [input, hst1, hct]
    simp only [hrow]
    rw [if_neg (by decide : ¬ ((3 : Nat) = 0)),
      if_neg (by decide : ¬ ((3 : Nat) = 1)),
      if_neg (by decide : ¬ ((3 : Nat) = 2)), if_pos trivial]
  constructor
  · intro hd
    refine ⟨by rw [hin, if_pos hd], ?_⟩
    rw [hin, if_pos hd]
    rcases hd with rfl | rfl | rfl
    · show some (min ((cursorOr st).1 + 1)
        (contentAt { st with content := some { ct with priority := 0 } }
          (cursorOr st).2).length) = _
      rw [hrow]
      rfl
    · show some (min ((cursorOr st).1 + 1)
        (contentAt { st with content := some { ct with priority := 1 } }
          (cursorOr st).2).length) = _
      rw [hrow]
      rfl
    · show some (min ((cursorOr st).1 + 1)
        (contentAt { st with content := some { ct with priority := 2 } }
          (cursorOr st).2).length) = _
      rw [hrow]
      rfl
  · intro hd
    refine ⟨by rw [hin, if_neg hd], ?_⟩
    rw [hin, if_neg hd]
    show some (min ((cursorOr st).1 + 1)
      (contentAt st (cursorOr st).2).length) = _
    rw [hrow, hca]
    rfl

/-- Witness for C9 (amended): inserting `'2'` on the priority row clamps
the cursor column to 1. -/
theorem c9_witness :
    (input c9WitnessState '2').map cursorCol =
      some (min (cursorCol c9WitnessState + 1) 1) :=
  ((c9_priority_insert_amended c9WitnessState ⟨['a'], ['b'], [], 1⟩ '2'
    rfl rfl).1 (by decide)).2
